import Mathlib

/-!
Verification development for the JC3D engine's three-dimensional vector
specialization (`src/Engine/Source/Public/Math/Vector3.h`).

The header defines `Vector<3, T>` as an anonymous union of
`std::array<T, 3> Data` with named components `X`, `Y`, `Z`, four
constructors (default, scalar broadcast, 2D-vector-plus-scalar extension,
bounded initializer list) and a static `Cross`.  The generic base
(`VectorBase` in `Math/Vector.h`: `Size`, `operator[]`, `Dot`, `Length`,
`Normalized`, element-wise negation) and the 2D specialization are not part
of the sources under study, so those operations are modelled from the
specification where a theorem needs them; each such definition says so in
its doc comment.
-/

namespace JC3D

/-- The storage of `Vector<3, T>`: three elements of type `T`.  In the header
the anonymous union makes the named fields `X`, `Y`, `Z` aliases of
`Data[0]`, `Data[1]`, `Data[2]`; the model therefore carries the three
components once, and both access paths (named fields and sequence index,
see `Vector3.ix`) read the same component. -/
structure Vector3 (T : Type) where
  X : T
  Y : T
  Z : T
deriving DecidableEq, Repr

/-- Modelled from the spec: the two-dimensional specialization
`Vector<2, T>` (its header `Math/Vector2.h` is not under the sources);
only its named fields `X` and `Y` are needed here, as inputs to the 3D
extension constructor. -/
structure Vector2 (T : Type) where
  X : T
  Y : T
deriving DecidableEq, Repr

/-- Default constructor `Vector() : Data()`: `Data()` value-initializes the
array, which for a numeric element type yields zero in every component. -/
def Vector3.mkDefault (T : Type) [Zero T] : Vector3 T := ⟨0, 0, 0⟩

/-- Scalar constructor `Vector(const T& scalar)`:
`Data = { scalar, scalar, scalar }`. -/
def Vector3.broadcast {T : Type} (scalar : T) : Vector3 T :=
  ⟨scalar, scalar, scalar⟩

/-- Extension constructor `Vector(const Vector<2, T>& vector, const T& z)`:
`Data = { vector.X, vector.Y, z }`. -/
def Vector3.extend {T : Type} (vector : Vector2 T) (z : T) : Vector3 T :=
  ⟨vector.X, vector.Y, z⟩

/-- Initializer-list constructor
`Vector(const std::initializer_list<T> args)`: it runs
`assert(args.size() <= Size())` (`Size()` comes from the generic base and
returns 3, per the spec `size() -> N`) and then `Data = args`.  Unlike
every other constructor in the header it does not delegate to `Vector()`,
so `Data` holds indeterminate contents when the body runs; the `junk`
argument makes that prior storage explicit.  The failed assertion is
modelled as `none`.  `Data = args` itself is ill-formed as written
(`std::array` has no assignment operator taking a named
`std::initializer_list`, so the constructor cannot compile when
instantiated); its nearest meaning — copying the `args.size()` supplied
values into the leading slots — is what the body is modelled as, which
leaves every unsupplied slot at the indeterminate prior contents, not at
zero. -/
def Vector3.ofListRaw {T : Type} (junk : Vector3 T) (args : List T) :
    Option (Vector3 T) :=
  if args.length ≤ 3 then
    some ⟨args.getD 0 junk.X, args.getD 1 junk.Y, args.getD 2 junk.Z⟩
  else
    none

/-- From the header, `Cross(a, b)` computes
`rx = a.Y * b.Z - a.Z * b.Y`, `ry = a.Z * b.X - a.X * b.Z`,
`rz = a.X * b.Y - a.Y * b.X` and returns `Vector<3, T>(rx, ry, rz)`. -/
def Vector3.Cross {T : Type} [CommRing T] (a b : Vector3 T) : Vector3 T :=
  let rx := a.Y * b.Z - a.Z * b.Y
  let ry := a.Z * b.X - a.X * b.Z
  let rz := a.X * b.Y - a.Y * b.X
  ⟨rx, ry, rz⟩

/-- Sequence-index read `operator[](i)` of the generic base, in range
(index 0 = X, 1 = Y, 2 = Z, per the spec): it reads the storage slot `i`
that the named field aliases. -/
def Vector3.ix {T : Type} (v : Vector3 T) (i : Fin 3) : T :=
  match i with
  | ⟨0, _⟩ => v.X
  | ⟨1, _⟩ => v.Y
  | ⟨2, _⟩ => v.Z

/-- Sequence-index write through `operator[](i)`, in range: it overwrites
the storage slot `i` and leaves the other two slots unchanged. -/
def Vector3.setIx {T : Type} (v : Vector3 T) (i : Fin 3) (a : T) : Vector3 T :=
  match i with
  | ⟨0, _⟩ => ⟨a, v.Y, v.Z⟩
  | ⟨1, _⟩ => ⟨v.X, a, v.Z⟩
  | ⟨2, _⟩ => ⟨v.X, v.Y, a⟩

/-- Write through the named field `X` (the union aliases it onto slot 0). -/
def Vector3.setX {T : Type} (v : Vector3 T) (a : T) : Vector3 T := ⟨a, v.Y, v.Z⟩

/-- Write through the named field `Y` (the union aliases it onto slot 1). -/
def Vector3.setY {T : Type} (v : Vector3 T) (a : T) : Vector3 T := ⟨v.X, a, v.Z⟩

/-- Write through the named field `Z` (the union aliases it onto slot 2). -/
def Vector3.setZ {T : Type} (v : Vector3 T) (a : T) : Vector3 T := ⟨v.X, v.Y, a⟩

/-- Modelled from the spec: `Dot(a, b) -> T` of the generic base
(`Math/Vector.h`, not under the sources) is the sum over `i` of
`a[i] * b[i]`. -/
def Vector3.Dot {T : Type} [CommRing T] (a b : Vector3 T) : T :=
  a.X * b.X + a.Y * b.Y + a.Z * b.Z

/-- Modelled from the spec: unary `operator-` of the generic base
(`Math/Vector.h`, not under the sources) is element-wise negation. -/
def Vector3.neg {T : Type} [CommRing T] (v : Vector3 T) : Vector3 T :=
  ⟨-v.X, -v.Y, -v.Z⟩

/-- C1: for all 3D vectors `a` and `b`, `Cross(a, b)` is exactly the vector
`(a.Y*b.Z - a.Z*b.Y, a.Z*b.X - a.X*b.Z, a.X*b.Y - a.Y*b.X)`; evaluated at
`a = (1,0,0)`, `b = (0,1,0)` (see the witness) this gives `(0,0,1)`. -/
theorem cross_matches_source_formula (T : Type) [CommRing T] (a b : Vector3 T) :
    Vector3.Cross a b =
      ⟨a.Y * b.Z - a.Z * b.Y, a.Z * b.X - a.X * b.Z, a.X * b.Y - a.Y * b.X⟩ :=
  rfl

theorem cross_matches_source_formula_check :
    Vector3.Cross (Vector3.mk (1 : ℤ) 0 0) (Vector3.mk 0 1 0) = Vector3.mk 0 0 1 := by
  rw [cross_matches_source_formula ℤ (Vector3.mk 1 0 0) (Vector3.mk 0 1 0)]
  decide

/-- C5: the cross product is anti-commutative: for all 3D vectors `a`, `b`
over a commutative ring, `Cross(a, b)` is the component-wise negation of
`Cross(b, a)`. -/
theorem cross_anticommutative (T : Type) [CommRing T] (a b : Vector3 T) :
    Vector3.Cross a b = Vector3.neg (Vector3.Cross b a) := by
  simp only [Vector3.Cross, Vector3.neg, Vector3.mk.injEq]
  refine ⟨by ring, by ring, by ring⟩

theorem cross_anticommutative_check :
    Vector3.Cross (Vector3.mk (1 : ℤ) 2 3) (Vector3.mk 4 5 6) =
      Vector3.neg (Vector3.Cross (Vector3.mk 4 5 6) (Vector3.mk 1 2 3)) :=
  cross_anticommutative ℤ (Vector3.mk 1 2 3) (Vector3.mk 4 5 6)

/-- C6: the cross product is orthogonal to both of its inputs: for all 3D
vectors `a`, `b` over a commutative (exact) ring,
`Dot(Cross(a,b), a) = 0` and `Dot(Cross(a,b), b) = 0`. -/
theorem cross_orthogonal_to_inputs (T : Type) [CommRing T] (a b : Vector3 T) :
    Vector3.Dot (Vector3.Cross a b) a = 0 ∧ Vector3.Dot (Vector3.Cross a b) b = 0 := by
  constructor
  · simp only [Vector3.Cross, Vector3.Dot]
    ring
  · simp only [Vector3.Cross, Vector3.Dot]
    ring

theorem cross_orthogonal_to_inputs_check :
    Vector3.Dot (Vector3.Cross (Vector3.mk (2 : ℤ) 3 5) (Vector3.mk 7 11 13))
        (Vector3.mk 2 3 5) = 0 ∧
      Vector3.Dot (Vector3.Cross (Vector3.mk (2 : ℤ) 3 5) (Vector3.mk 7 11 13))
        (Vector3.mk 7 11 13) = 0 :=
  cross_orthogonal_to_inputs ℤ (Vector3.mk 2 3 5) (Vector3.mk 7 11 13)

/-- C10: over an exact-arithmetic element type, the cross product of a
vector with itself is the zero vector: `Cross(a, a) = (0, 0, 0)`. -/
theorem cross_self_zero (T : Type) [CommRing T] (a : Vector3 T) :
    Vector3.Cross a a = Vector3.mk 0 0 0 := by
  simp only [Vector3.Cross, Vector3.mk.injEq]
  refine ⟨by ring, by ring, by ring⟩

theorem cross_self_zero_check :
    Vector3.Cross (Vector3.mk (3 : ℤ) 1 4) (Vector3.mk 3 1 4) = Vector3.mk 0 0 0 :=
  cross_self_zero ℤ (Vector3.mk 3 1 4)

/-- C7: the named fields `X`, `Y`, `Z` alias sequence indices 0, 1, 2 of the
same storage: for every vector (so in particular for the result of every
operation) reading a named field agrees with reading the corresponding
index, and writing through a named field is the same transformation as
writing through the corresponding index.  The witness checks the concrete
example `v = (5,6,7)`: `v[0] = v.X = 5`, `v[1] = v.Y = 6`, `v[2] = v.Z = 7`. -/
theorem named_fields_alias_indices (T : Type) (v : Vector3 T) (a : T) :
    (v.ix 0 = v.X ∧ v.ix 1 = v.Y ∧ v.ix 2 = v.Z) ∧
      (v.setIx 0 a = v.setX a ∧ v.setIx 1 a = v.setY a ∧ v.setIx 2 a = v.setZ a) :=
  ⟨⟨rfl, rfl, rfl⟩, rfl, rfl, rfl⟩

theorem named_fields_alias_indices_check :
    ((Vector3.mk (5 : ℤ) 6 7).ix 0 = (Vector3.mk (5 : ℤ) 6 7).X ∧
        (Vector3.mk (5 : ℤ) 6 7).ix 1 = (Vector3.mk (5 : ℤ) 6 7).Y ∧
        (Vector3.mk (5 : ℤ) 6 7).ix 2 = (Vector3.mk (5 : ℤ) 6 7).Z) ∧
      ((Vector3.mk (5 : ℤ) 6 7).ix 0 = 5 ∧
        (Vector3.mk (5 : ℤ) 6 7).ix 1 = 6 ∧
        (Vector3.mk (5 : ℤ) 6 7).ix 2 = 7) :=
  ⟨(named_fields_alias_indices ℤ (Vector3.mk 5 6 7) 9).1, by decide⟩

/-- C8: the 3D extension constructor places the 2D vector's components
first and the scalar last: `Vector(v, z) = (v.X, v.Y, z)`, so that also
through the sequence view slot 0 holds `v.X`, slot 1 holds `v.Y` and slot 2
holds `z`.  The witness checks that extending `(1,2)` with `3` yields
`(1,2,3)`. -/
theorem extension_places_scalar_last (T : Type) (v : Vector2 T) (z : T) :
    Vector3.extend v z = Vector3.mk v.X v.Y z ∧
      (Vector3.extend v z).ix 0 = v.X ∧
      (Vector3.extend v z).ix 1 = v.Y ∧
      (Vector3.extend v z).ix 2 = z :=
  ⟨rfl, rfl, rfl, rfl⟩

theorem extension_places_scalar_last_check :
    Vector3.extend (Vector2.mk (1 : ℤ) 2) 3 = Vector3.mk 1 2 3 :=
  (extension_places_scalar_last ℤ (Vector2.mk 1 2) 3).1

/-- C9: the scalar-broadcast constructor sets all three elements to the
given scalar, and the default constructor default-initializes all three
elements, which for a numeric element type yields zero. -/
theorem default_and_broadcast_ctors (T : Type) [Zero T] (s : T) :
    (∀ i : Fin 3, (Vector3.mkDefault T).ix i = 0) ∧
      (∀ i : Fin 3, (Vector3.broadcast s).ix i = s) := by
  constructor
  · intro i
    fin_cases i <;> rfl
  · intro i
    fin_cases i <;> rfl

theorem default_and_broadcast_ctors_check :
    ((Vector3.mkDefault ℤ).ix 0 = 0 ∧
        (Vector3.mkDefault ℤ).ix 1 = 0 ∧
        (Vector3.mkDefault ℤ).ix 2 = 0) ∧
      ((Vector3.broadcast (7 : ℤ)).ix 0 = 7 ∧
        (Vector3.broadcast (7 : ℤ)).ix 1 = 7 ∧
        (Vector3.broadcast (7 : ℤ)).ix 2 = 7) :=
  ⟨⟨(default_and_broadcast_ctors ℤ 7).1 0,
      (default_and_broadcast_ctors ℤ 7).1 1,
      (default_and_broadcast_ctors ℤ 7).1 2⟩,
    (default_and_broadcast_ctors ℤ 7).2 0,
    (default_and_broadcast_ctors ℤ 7).2 1,
    (default_and_broadcast_ctors ℤ 7).2 2⟩

/-- C2: the claim fails on the code and the code is the slip: the
initializer-list constructor alone does not delegate to `Vector()`, so
`Data` is never default-initialized, and a 3D vector constructed from
`{1, 2}` keeps the storage's indeterminate prior contents in the third
element (here exhibited as 9) rather than the default 0 that the claim,
the spec and the constructor's own doc comment describe. -/
theorem initializer_list_third_element_indeterminate :
    Vector3.ofListRaw (Vector3.mk (9 : ℤ) 9 9) [1, 2] = some (Vector3.mk 1 2 9) ∧
      Vector3.ofListRaw (Vector3.mk (9 : ℤ) 9 9) [1, 2] ≠ some (Vector3.mk 1 2 0) := by
  decide

/-- C3: only the assertion half of the claim reflects the code: supplying
more than 3 values signals the contract violation (`none`), but with 3 or
fewer values construction cannot succeed as the claim states — the body
`Data = args` has no viable assignment operator for a named initializer
list, so the constructor is ill-formed when instantiated, and even under
its nearest meaning (an element-wise copy) the value handed back keeps the
indeterminate prior storage in the unsupplied slots, as the evaluation of
`{1, 2}` over prior contents `(9, 9, 9)` shows. -/
theorem initializer_list_assert_half_only :
    Vector3.ofListRaw (Vector3.mk (9 : ℤ) 9 9) [1, 2, 3, 4] = none ∧
      Vector3.ofListRaw (Vector3.mk (9 : ℤ) 9 9) [1, 2, 3] = some (Vector3.mk 1 2 3) ∧
      Vector3.ofListRaw (Vector3.mk (9 : ℤ) 9 9) [1, 2] = some (Vector3.mk 1 2 9) := by
  decide

/-- Modelled from the spec: `LengthSquared() -> T` of the generic base
(`Math/Vector.h`, not under the sources) is `Dot(v, v)`. -/
def Vector3.LengthSquared {T : Type} [CommRing T] (v : Vector3 T) : T :=
  Vector3.Dot v v

/-- Modelled from the spec: `Length() -> T` of the generic base
(`Math/Vector.h`, not under the sources) is the square root of
`LengthSquared()`; the real-valued element type stands for the type
`T convertible to a real number` the spec requires. -/
noncomputable def Vector3.Length (v : Vector3 ℝ) : ℝ :=
  Real.sqrt v.LengthSquared

/-- Modelled from the spec: `operator/` with a scalar of the generic base
(`Math/Vector.h`, not under the sources) is the element-wise scale. -/
noncomputable def Vector3.divScalar (v : Vector3 ℝ) (s : ℝ) : Vector3 ℝ :=
  ⟨v.X / s, v.Y / s, v.Z / s⟩

/-- Modelled from the spec: `Normalized() -> Vector<N,T>` of the generic
base (`Math/Vector.h`, not under the sources) returns `v / Length()`, and
when `Length() == 0` it fails by signaling a domain error (division by
zero) instead of returning a value; the signaled error is modelled as
`none`. -/
noncomputable def Vector3.Normalized (v : Vector3 ℝ) : Option (Vector3 ℝ) :=
  if v.Length = 0 then none else some (v.divScalar v.Length)

theorem lengthSquared_nonneg (v : Vector3 ℝ) : 0 ≤ v.LengthSquared := by
  obtain ⟨x, y, z⟩ := v
  simp only [Vector3.LengthSquared, Vector3.Dot]
  exact add_nonneg (add_nonneg (mul_self_nonneg x) (mul_self_nonneg y)) (mul_self_nonneg z)

theorem length_eq_zero_iff (v : Vector3 ℝ) :
    v.Length = 0 ↔ v = Vector3.mk 0 0 0 := by
  obtain ⟨x, y, z⟩ := v
  rw [Vector3.Length, Real.sqrt_eq_zero']
  simp only [Vector3.LengthSquared, Vector3.Dot, Vector3.mk.injEq]
  constructor
  · intro hle
    have hx : x * x = 0 := by
      nlinarith [mul_self_nonneg x, mul_self_nonneg y, mul_self_nonneg z]
    have hy : y * y = 0 := by
      nlinarith [mul_self_nonneg x, mul_self_nonneg y, mul_self_nonneg z]
    have hz : z * z = 0 := by
      nlinarith [mul_self_nonneg x, mul_self_nonneg y, mul_self_nonneg z]
    exact ⟨mul_self_eq_zero.mp hx, mul_self_eq_zero.mp hy, mul_self_eq_zero.mp hz⟩
  · rintro ⟨rfl, rfl, rfl⟩
    simp

/-- C4: `Normalized` on a vector of zero length signals the domain error
and never returns a value (zero length happens exactly on the zero
vector); on every nonzero vector it returns `v / Length()`, whose `Length`
is exactly 1 over the real numbers. -/
theorem normalized_zero_and_unit (v : Vector3 ℝ) :
    (v.Length = 0 ↔ v = Vector3.mk 0 0 0) ∧
      (v.Length = 0 → v.Normalized = none) ∧
      (v ≠ Vector3.mk 0 0 0 →
        v.Normalized = some (v.divScalar v.Length) ∧
        (v.divScalar v.Length).Length = 1) := by
  refine ⟨length_eq_zero_iff v, ?_, ?_⟩
  · intro h0
    simp only [Vector3.Normalized, if_pos h0]
  · intro hne
    have hL : v.Length ≠ 0 := fun hc => hne ((length_eq_zero_iff v).mp hc)
    refine ⟨by simp only [Vector3.Normalized, if_neg hL], ?_⟩
    have hS : 0 ≤ v.LengthSquared := lengthSquared_nonneg v
    have hsq : v.Length * v.Length = v.LengthSquared := by
      have h2 := Real.sq_sqrt hS
      rw [sq] at h2
      exact h2
    have hS0 : v.LengthSquared ≠ 0 := by
      intro hc
      exact hL (by rw [Vector3.Length, hc, Real.sqrt_zero])
    obtain ⟨x, y, z⟩ := v
    rw [Vector3.Length]
    have hone : (Vector3.divScalar ⟨x, y, z⟩ (Vector3.Length ⟨x, y, z⟩)).LengthSquared = 1 := by
      simp only [Vector3.divScalar, Vector3.LengthSquared, Vector3.Dot] at hsq hS0 ⊢
      field_simp
      linarith [hsq]
    rw [hone, Real.sqrt_one]

theorem normalized_zero_and_unit_check :
    Vector3.Normalized (Vector3.mk (0 : ℝ) 0 0) = none ∧
      (Vector3.Normalized (Vector3.mk (3 : ℝ) 0 4) =
          some ((Vector3.mk (3 : ℝ) 0 4).divScalar (Vector3.mk (3 : ℝ) 0 4).Length) ∧
        ((Vector3.mk (3 : ℝ) 0 4).divScalar (Vector3.mk (3 : ℝ) 0 4).Length).Length = 1) :=
  ⟨(normalized_zero_and_unit (Vector3.mk 0 0 0)).2.1
      ((length_eq_zero_iff (Vector3.mk 0 0 0)).mpr rfl),
    (normalized_zero_and_unit (Vector3.mk 3 0 4)).2.2 (by
      intro hc
      have h3 : (3 : ℝ) = 0 := congrArg Vector3.X hc
      norm_num at h3)⟩

end JC3D
